import Mathlib

/-!
Verification development for the cached-certificate-operator reconciliation
core.  Go strings are modelled as `List Char` (byte-for-byte for the ASCII
object names the operator manipulates), Go maps as association lists, and the
Kubernetes store as explicit finite maps inside a `Cluster` record.  Each
definition mirrors the corresponding Go function from
`controllers/cachedcertificate_controller.go`,
`controllers/cachedcertificate_upstreamsecret.go` and
`api/v1alpha1/cachedcertificate_types.go`.
-/

set_option maxRecDepth 100000

/-- Characters of a Lean string literal; used to write Go string constants. -/
def str (s : String) : List Char := s.data

/-- Embeds Go `sort.Strings`: lexicographically ascending sort.  Insertion
sort is extensionally the unique ascending reordering, hence a faithful model
of any correct sorting routine over strings. -/
def sortStrings (l : List (List Char)) : List (List Char) :=
  List.insertionSort (· ≤ ·) l

theorem sortStrings_perm (l : List (List Char)) : List.Perm (sortStrings l) l :=
  List.perm_insertionSort _ l

theorem sortStrings_sorted (l : List (List Char)) :
    List.Sorted (· ≤ ·) (sortStrings l) :=
  List.sorted_insertionSort _ l

theorem sortStrings_eq_of_perm {l₁ l₂ : List (List Char)} (h : List.Perm l₁ l₂) :
    sortStrings l₁ = sortStrings l₂ :=
  List.eq_of_perm_of_sorted ((sortStrings_perm l₁).trans (h.trans (sortStrings_perm l₂).symm))
    (sortStrings_sorted l₁) (sortStrings_sorted l₂)

/-- Embeds Go `strings.ReplaceAll(s, old, new)` for the one-character
patterns used by the controller (`"*"`/`"\\"` to `"x"`). -/
def replaceAllChar (s : List Char) (c r : Char) : List Char :=
  s.map (fun a => if a = c then r else a)

/-- FNV-64a over a byte sequence: embeds `hash/fnv.New64a` plus `Write`
plus `Sum64`.  The offset basis and prime are the published FNV-64a
constants; arithmetic is on 64-bit words, hence the `% 2 ^ 64`. -/
def fnv64a (bytes : List Nat) : Nat :=
  bytes.foldl (fun h b => ((h ^^^ b) * 1099511628211) % (2 ^ 64)) 14695981039346656037

/-- Embeds `genHash` (controller): FNV-64a of the string's bytes rendered in
decimal via `strconv.FormatUint(..., 10)`. -/
def genHash (s : List Char) : List Char :=
  (Nat.repr (fnv64a (s.map Char.toNat))).data

/-- Validation of the hash model against the repository's own unit-test
vector `genHash("hash") = "3331993900282443793"`. -/
theorem genHash_test_vector₁ : genHash (str "hash") = str "3331993900282443793" := by
  decide

/-- Second unit-test vector `genHash("hash2") = "12478621798616408953"`. -/
theorem genHash_test_vector₂ : genHash (str "hash2") = str "12478621798616408953" := by
  decide

/-- `maxSecretNameLength` (controller constant): max length of a kubernetes
secret name. -/
def maxSecretNameLength : Nat := 253

/-- `hashPrefixLength` (controller constant): chars kept before each hash. -/
def hashPrefixLength : Nat := 128

/-- Embeds `getUpstreamCertificateName`: deterministic upstream cert name
from the given dns names.  Empty input yields the empty string; otherwise the
input is copied, sorted, joined with `-`, `*` is replaced by `x`, names longer
than `maxSecretNameLength` are truncated to `hashPrefixLength - 3` chars plus
the decimal FNV-64a hash of the (star-replaced, backslash-intact) joined
string, `\` is replaced by `x`, and `cc-` is prefixed. -/
def getUpstreamCertificateName (dnsNames : List (List Char)) : List Char :=
  if dnsNames.length = 0 then [] else
    let names := sortStrings dnsNames
    let resourceName := List.intercalate (str "-") names
    let resourceName := replaceAllChar resourceName '*' 'x'
    let resourceName :=
      if maxSecretNameLength < resourceName.length then
        resourceName.take (hashPrefixLength - 3) ++ genHash resourceName
      else resourceName
    let resourceName := replaceAllChar resourceName '\\' 'x'
    str "cc-" ++ resourceName

/-- State-passing view of `getUpstreamCertificateName`: the second component
is the caller's slice after the call.  The Go body copies the input
(`copy(names, dnsNames)`) and every subsequent write (the in-place
`sort.Strings(names)`) targets only that copy, so the caller's slice still
holds the original elements in the original order when the call returns. -/
def getUpstreamCertificateNameGo (dnsNames : List (List Char)) :
    List Char × List (List Char) :=
  (getUpstreamCertificateName dnsNames, dnsNames)

/-- Validation against the repository's unit test `long is hashed`: a
5-element input with 63-char labels triggers the truncate-plus-hash path. -/
theorem upstreamName_test_long :
    getUpstreamCertificateName
      [str "a.example.com",
       List.replicate 63 'b' ++ str ".example.com",
       List.replicate 63 'c' ++ str ".example.com",
       List.replicate 63 'd' ++ str ".example.com",
       List.replicate 63 'f' ++ str ".example.com"] =
    str "cc-a.example.com-" ++ List.replicate 63 'b' ++ str ".example.com-" ++
      List.replicate 35 'c' ++ str "12004226272052881208" := by
  decide

/-- Embeds `slicesEqualAfterSort`: copies the two slices, sorts them and
compares elementwise; `nil` and the empty slice compare equal. -/
def slicesEqualAfterSort (x y : List (List Char)) : Bool :=
  if x.length ≠ y.length then false
  else if x.length = 1 then x.head? == y.head?
  else sortStrings x == sortStrings y

/-! ## Kubernetes objects and Go maps -/

/-- Association-list model of a Go `map[string]string`.  A `nil` Go map reads
like an empty one, so both are modelled by `[]`. -/
abbrev KVMap := List (List Char × List Char)

/-- Go map read `m[k]` restricted to present keys: `none` when absent. -/
def mapGet (m : KVMap) (k : List Char) : Option (List Char) :=
  (m.find? (fun kv => kv.1 == k)).map (fun kv => kv.2)

/-- Go map read `m[k]` with the zero value `""` for absent keys. -/
def mapGetD (m : KVMap) (k : List Char) : List Char :=
  (mapGet m k).getD []

/-- Go map assignment `m[k] = v` (overwrites any previous binding). -/
def mapInsert (m : KVMap) (k v : List Char) : KVMap :=
  m.filter (fun kv => !(kv.1 == k)) ++ [(k, v)]

/-- `SyncedLabelKey = GroupVersion.Group + "/synced-from-cache"` with group
`cache.weavelab.xyz`. -/
def SyncedLabelKey : List Char := str "cache.weavelab.xyz/synced-from-cache"

/-- `SourceAnnotationKey = GroupVersion.Group + "/source"`. -/
def SourceAnnotationKey : List Char := str "cache.weavelab.xyz/source"

/-- `CertificateNameAnnotationKey` (upstream-secret reconciler constant). -/
def CertificateNameAnnotationKey : List Char := str "cert-manager.io/certificate-name"

/-- One entry of `metav1.OwnerReference` as produced by
`metav1.NewControllerRef` (name of the owner, `Controller` and
`BlockOwnerDeletion` pointers set to true). -/
structure OwnerReference where
  name : List Char
  controller : Bool
  blockOwnerDeletion : Bool
deriving DecidableEq, Repr

/-- The fields of `corev1.Secret` the controller reads or writes.  `data`
maps keys to byte slices. -/
structure Secret where
  name : List Char
  ns : List Char
  labels : KVMap
  annotations : KVMap
  typ : List Char
  data : List (List Char × List Nat)
  ownerReferences : List OwnerReference
deriving DecidableEq, Repr

/-- Byte-slice map read `data[k]` (presence only matters to the callers). -/
def dataGet (d : List (List Char × List Nat)) (k : List Char) : Option (List Nat) :=
  (d.find? (fun kv => kv.1 == k)).map (fun kv => kv.2)

/-- `v1alpha1.IssuerRef`. -/
structure IssuerRef where
  name : List Char
  kind : List Char
  group : List Char
deriving DecidableEq, Repr

/-- `v1alpha1.ObjectReference`. -/
structure ObjectReference where
  name : List Char
  ns : List Char
deriving DecidableEq, Repr

/-- `v1alpha1.CachedCertificateStatus`; `state` is a string in the source
(`CachedCertificateState string`), so it is a string here — its zero value is
the empty string, not one of the three enumerated constants. -/
structure CCStatus where
  upstreamReady : Bool
  upstreamRef : Option ObjectReference
  state : List Char
deriving DecidableEq, Repr

/-- The three `CachedCertificateState` constants. -/
def statePending : List Char := str "Pending"

def stateSynced : List Char := str "Synced"

def stateError : List Char := str "Error"

/-- `v1alpha1.CachedCertificateSpec`. -/
structure CCSpec where
  secretName : List Char
  issuerRef : IssuerRef
  dnsNames : List (List Char)
deriving DecidableEq, Repr

/-- `v1alpha1.CachedCertificate` (identity plus spec plus status). -/
structure CachedCertificate where
  name : List Char
  ns : List Char
  spec : CCSpec
  status : CCStatus
deriving DecidableEq, Repr

/-- Result of reading one dynamic field of the unstructured upstream
`Certificate` (`unstructured.NestedStringSlice` / `NestedString`): the field
may be absent (`found = false`), of the wrong type (`err != nil`), or
present with a value. -/
inductive FieldView (α : Type) where
  | absent
  | badType
  | val (a : α)
deriving DecidableEq, Repr

/-- Partial-schema view of the unstructured upstream `Certificate`: only the
fields the controller consumes (`spec.dnsNames`, `spec.secretName`) plus the
fields it writes on creation. -/
structure UpstreamCert where
  name : List Char
  ns : List Char
  dnsNames : FieldView (List (List Char))
  secretName : FieldView (List Char)
  issuerRef : IssuerRef
deriving DecidableEq, Repr

/-! ## Secret materialization and validation -/

/-- Embeds `genSecretForSync`: any `nil` input is an error; otherwise the
target secret copies name/namespace from the request, labels/annotations from
the upstream secret overlaid with the marker label and source annotation,
type/data verbatim from the upstream secret, and a single controller owner
reference to the request. -/
def genSecretForSync (cachedCert : Option CachedCertificate)
    (upstreamCert : Option UpstreamCert) (upstreamSecret : Option Secret) :
    Except (List Char) Secret :=
  match cachedCert with
  | none => .error (str "a CachedCertificate is required for secret generation")
  | some cc =>
    match upstreamCert with
    | none => .error (str "an upstream Certificate is required for secret generation")
    | some _ =>
      match upstreamSecret with
      | none => .error (str "an upstream Secret is required for secret generation")
      | some us =>
        .ok { name := cc.spec.secretName
              ns := cc.ns
              labels := mapInsert us.labels SyncedLabelKey (str "true")
              annotations := mapInsert us.annotations SourceAnnotationKey
                (cc.ns ++ str "/" ++ cc.name)
              typ := us.typ
              data := us.data
              ownerReferences := [{ name := cc.name
                                    controller := true
                                    blockOwnerDeletion := true }] }

/-- Embeds `validateSecret`: a nil secret is invalid; the data must contain
entries for `tls.crt` and `tls.key` (values may be empty); `ca.crt` is not
checked. -/
def validateSecret (secret : Option Secret) : Except (List Char) Unit :=
  match secret with
  | none => .error (str "secret cannot be nil")
  | some s =>
    if (dataGet s.data (str "tls.crt")).isNone then .error (str "tls.cert not found")
    else if (dataGet s.data (str "tls.key")).isNone then .error (str "tls.key not found")
    else .ok ()

/-! ## The Kubernetes store -/

/-- Secrets indexed by (namespace, name). -/
abbrev SecretStore := List ((List Char × List Char) × Secret)

/-- Upstream Certificates indexed by (namespace, name). -/
abbrev CertStore := List ((List Char × List Char) × UpstreamCert)

/-- `r.Get` on secrets: `none` models the NotFound error. -/
def secretStoreGet (st : SecretStore) (ns name : List Char) : Option Secret :=
  (st.find? (fun kv => kv.1 == (ns, name))).map (fun kv => kv.2)

/-- `r.Create` / `r.Update` on secrets: (re)bind the key wholesale. -/
def secretStorePut (st : SecretStore) (s : Secret) : SecretStore :=
  st.filter (fun kv => !(kv.1 == (s.ns, s.name))) ++ [((s.ns, s.name), s)]

/-- `r.Get` on upstream Certificates: `none` models the NotFound error. -/
def certStoreGet (st : CertStore) (ns name : List Char) : Option UpstreamCert :=
  (st.find? (fun kv => kv.1 == (ns, name))).map (fun kv => kv.2)

/-- `r.Create` on upstream Certificates. -/
def certStorePut (st : CertStore) (c : UpstreamCert) : CertStore :=
  st.filter (fun kv => !(kv.1 == (c.ns, c.name))) ++ [((c.ns, c.name), c)]

/-- Embeds `upsertTargetSecret`: create when absent; refuse to touch an
existing secret whose labels lack the `SyncedLabelKey` key (presence of the
key is all that is checked, not its value); otherwise replace wholesale. -/
def upsertTargetSecret (store : SecretStore) (secret : Secret) :
    Except (List Char) SecretStore :=
  match secretStoreGet store secret.ns secret.name with
  | none => .ok (secretStorePut store secret)
  | some existingSecret =>
    match mapGet existingSecret.labels SyncedLabelKey with
    | none => .error (str "refusing to update a secret not created by the controller")
    | some _ => .ok (secretStorePut store secret)

/-! ## The request reconciler -/

/-- The slice of the cluster a request-reconcile pass touches: the stored
request object (`none` models Get returning NotFound), the upstream
Certificates, and all secrets. -/
structure Cluster where
  cachedCert : Option CachedCertificate
  upstreamCerts : CertStore
  secrets : SecretStore
deriving DecidableEq, Repr

/-- Which source line issued a `Status().Update` call (instrumentation only;
the written status carries the semantics). -/
inductive WriteSite where
  | afterCreate
  | staleReset
  | secretMissing
  | secretGetError
  | readyFlip
  | upsertError
  | synced
deriving DecidableEq, Repr

/-- Persisted effects of one pass, in order. -/
inductive Event where
  | statusWrite (site : WriteSite) (st : CCStatus)
  | createUpstream (c : UpstreamCert)
deriving DecidableEq, Repr

/-- `ctrl.Result`: requeue flag and `RequeueAfter` in seconds. -/
structure RResult where
  requeue : Bool
  requeueAfterSec : Nat
deriving DecidableEq, Repr

/-- Outcome of one reconcile pass: the cluster afterwards, the persisted
effects in order, the returned `ctrl.Result`, and the returned error. -/
structure ReconcileOut where
  cluster : Cluster
  trace : List Event
  result : RResult
  err : Option (List Char)
deriving DecidableEq, Repr

/-- `r.Status().Update(ctx, cachedCert)`: replace the stored object's status
(and only its status — the in-memory spec defaulting is never persisted). -/
def persistStatus (cl : Cluster) (st : CCStatus) : Cluster :=
  { cl with cachedCert := cl.cachedCert.map (fun c => { c with status := st }) }

/-- The in-memory preparation steps of `Reconcile`: default
`spec.secretName` to the object name when empty, and speculatively fill
`status.upstreamRef` from the name deriver when unset.  Returns the prepared
object together with the reference it will fetch by. -/
def prepare (cacheNamespace : List Char) (cc0 : CachedCertificate) :
    CachedCertificate × ObjectReference :=
  let cc1 := if cc0.spec.secretName = [] then
      { cc0 with spec := { cc0.spec with secretName := cc0.name } }
    else cc0
  let ref := match cc1.status.upstreamRef with
    | some r => r
    | none => { name := getUpstreamCertificateName cc1.spec.dnsNames
                ns := cacheNamespace }
  ({ cc1 with status := { cc1.status with upstreamRef := some ref } }, ref)

/-- Outcome of `getUpstreamSecret`: k8s NotFound, a field error on the
upstream Certificate (absent / mistyped / empty `spec.secretName`), or the
secret. -/
inductive GetSecretResult where
  | notFound
  | fieldErr (msg : List Char)
  | found (s : Secret)
deriving DecidableEq, Repr

/-- Embeds `getUpstreamSecret`: read `spec.secretName` from the upstream
Certificate and fetch that secret in the Certificate's namespace. -/
def getUpstreamSecret (cl : Cluster) (upstreamCert : UpstreamCert) : GetSecretResult :=
  match upstreamCert.secretName with
  | .badType => .fieldErr (str "bad secretName in upstream Certificate")
  | .absent => .fieldErr (str "unable to find secretName in upstream Certificate")
  | .val sn =>
    if sn = [] then .fieldErr (str "secretName not set in upstream Certificate")
    else
      match secretStoreGet cl.secrets upstreamCert.ns sn with
      | none => .notFound
      | some s => .found s

/-- Embeds `createUpstreamCertificate`: dnsNames and issuerRef copied
verbatim from the request; its `spec.secretName` set to its own name; no
owner references. -/
def mkUpstreamCert (cc : CachedCertificate) (ref : ObjectReference) : UpstreamCert :=
  { name := ref.name
    ns := ref.ns
    dnsNames := .val cc.spec.dnsNames
    secretName := .val ref.name
    issuerRef := cc.spec.issuerRef }

/-- Embeds `CachedCertificateReconciler.Reconcile`, one full pass.  Store
reads never fail transiently in this model (NotFound is represented), so the
branches that only propagate backend failures are not represented.  Two Go
quirks are preserved: the `!found` dnsNames branch returns the `nil` error
it got from `NestedStringSlice`, and the upsert-conflict branch returns the
`nil` error of the successful status update that overwrote `err`. -/
def Reconcile (cacheNamespace : List Char) (cl : Cluster) : ReconcileOut :=
  match cl.cachedCert with
  | none => { cluster := cl, trace := [], result := { requeue := false, requeueAfterSec := 0 }, err := none }
  | some cc0 =>
    let cc2 := (prepare cacheNamespace cc0).1
    let ref := (prepare cacheNamespace cc0).2
    match certStoreGet cl.upstreamCerts ref.ns ref.name with
    | none =>
      let newUp := mkUpstreamCert cc2 ref
      { cluster := persistStatus { cl with upstreamCerts := certStorePut cl.upstreamCerts newUp } cc2.status
        trace := [.createUpstream newUp, .statusWrite .afterCreate cc2.status]
        result := { requeue := true, requeueAfterSec := 0 }
        err := none }
    | some upstreamCert =>
      match upstreamCert.dnsNames with
      | .badType =>
        { cluster := cl, trace := [], result := { requeue := false, requeueAfterSec := 0 }
          err := some (str "upstream Certificate has bad dnsNames") }
      | .absent =>
        { cluster := cl, trace := [], result := { requeue := false, requeueAfterSec := 0 }
          err := none }
      | .val upstreamDNSNames =>
        if slicesEqualAfterSort upstreamDNSNames cc2.spec.dnsNames then
          match getUpstreamSecret cl upstreamCert with
          | .notFound =>
            if cc2.status.state ≠ statePending ∨ cc2.status.upstreamReady then
              let st := { cc2.status with state := statePending, upstreamReady := false }
              { cluster := persistStatus cl st
                trace := [.statusWrite .secretMissing st]
                result := { requeue := true, requeueAfterSec := 2 }
                err := none }
            else
              { cluster := cl, trace := []
                result := { requeue := true, requeueAfterSec := 2 }
                err := none }
          | .fieldErr msg =>
            let st := { cc2.status with state := stateError, upstreamReady := false }
            { cluster := persistStatus cl st
              trace := [.statusWrite .secretGetError st]
              result := { requeue := false, requeueAfterSec := 0 }
              err := some msg }
          | .found upstreamSecret =>
            let step : CachedCertificate × List Event × Cluster :=
              if cc2.status.upstreamReady then (cc2, [], cl)
              else
                let flipped := { cc2 with status := { cc2.status with upstreamReady := true } }
                (flipped, [.statusWrite .readyFlip flipped.status], persistStatus cl flipped.status)
            let cc3 := step.1
            let trace1 := step.2.1
            let cl1 := step.2.2
            match genSecretForSync (some cc3) (some upstreamCert) (some upstreamSecret) with
            | .error e =>
              { cluster := cl1, trace := trace1
                result := { requeue := false, requeueAfterSec := 3 }, err := some e }
            | .ok secret =>
              match validateSecret (some secret) with
              | .error e =>
                { cluster := cl1, trace := trace1
                  result := { requeue := false, requeueAfterSec := 3 }, err := some e }
              | .ok _ =>
                match upsertTargetSecret cl1.secrets secret with
                | .error _ =>
                  let st := { cc3.status with state := stateError }
                  { cluster := persistStatus cl1 st
                    trace := trace1 ++ [.statusWrite .upsertError st]
                    result := { requeue := false, requeueAfterSec := 0 }
                    err := none }
                | .ok secrets2 =>
                  let st := { cc3.status with state := stateSynced }
                  { cluster := persistStatus { cl1 with secrets := secrets2 } st
                    trace := trace1 ++ [.statusWrite .synced st]
                    result := { requeue := false, requeueAfterSec := 0 }
                    err := none }
        else
          let st : CCStatus := { state := statePending, upstreamReady := false, upstreamRef := none }
          { cluster := persistStatus cl st
            trace := [.statusWrite .staleReset st]
            result := { requeue := false, requeueAfterSec := 0 }
            err := none }

/-! ## The upstream-secret (fan-out) reconciler -/

/-- The field-index function registered in `SetupWithManager` for
`status.upstreamRef.name`. -/
def indexValues (c : CachedCertificate) : List (List Char) :=
  match c.status.upstreamRef with
  | some r => if r.name ≠ [] then [r.name] else []
  | none => []

/-- One merge-patch call issued by the fan-out loop: `client.MergeFrom` diffs
the mutated object against its pre-mutation deep copy, so the patch carries a
state change exactly when `oldState` differs from `newState`. -/
structure StatusPatch where
  ns : List Char
  name : List Char
  oldState : List Char
  newState : List Char
deriving DecidableEq, Repr

/-- Outcome of one fan-out pass. -/
structure FanoutOut where
  certs : List CachedCertificate
  patches : List StatusPatch
  err : Option (List Char)
deriving DecidableEq, Repr

/-- Embeds `UpstreamSecretReconciler.Reconcile`: fetch the secret (NotFound
is a clean exit), read the cert-manager certificate-name annotation (empty is
a clean exit), list dependents through the `status.upstreamRef.name` index,
and issue one status merge-patch setting state to Pending for each dependent,
unconditionally. -/
def upstreamSecretReconcile (secret : Option Secret)
    (certs : List CachedCertificate) : FanoutOut :=
  match secret with
  | none => { certs := certs, patches := [], err := none }
  | some s =>
    let certName := mapGetD s.annotations CertificateNameAnnotationKey
    if certName = [] then { certs := certs, patches := [], err := none }
    else
      { certs := certs.map (fun c =>
          if certName ∈ indexValues c then
            { c with status := { c.status with state := statePending } }
          else c)
        patches := (certs.filter (fun c => certName ∈ indexValues c)).map
          (fun c => { ns := c.ns, name := c.name, oldState := c.status.state
                      newState := statePending })
        err := none }

/-- The event-filter closure built in
`UpstreamSecretReconciler.SetupWithManager`: only secrets in the cache
namespace, carrying the cert-manager certificate-name annotation, whose
`SyncedLabelKey` label value is not the string `true`. -/
def namespaceAndLabelsPredicate (cacheNamespace : List Char) (obj : Secret) : Bool :=
  obj.ns == cacheNamespace &&
    !(mapGetD obj.annotations CertificateNameAnnotationKey == []) &&
    !(mapGetD obj.labels SyncedLabelKey == str "true")

/-! ## Shared lemmas -/

theorem mapGet_mapInsert (m : KVMap) (k v : List Char) :
    mapGet (mapInsert m k v) k = some v := by
  induction m with
  | nil => simp [mapGet, mapInsert]
  | cons hd tl ih =>
    by_cases h : hd.1 = k
    · simp [mapGet, mapInsert, h]
    · simp [mapGet, mapInsert, h]

theorem persistStatus_persistStatus (cl : Cluster) (a b : CCStatus) :
    persistStatus (persistStatus cl a) b = persistStatus cl b := by
  cases cl with
  | mk cc ups secs => cases cc <;> rfl

theorem persistStatus_secrets (cl : Cluster) (st : CCStatus) :
    (persistStatus cl st).secrets = cl.secrets := rfl

theorem prepare_status_state (cacheNs : List Char) (cc : CachedCertificate) :
    ((prepare cacheNs cc).1).status.state = cc.status.state := by
  unfold prepare
  split <;> rfl

theorem prepare_status_ready (cacheNs : List Char) (cc : CachedCertificate) :
    ((prepare cacheNs cc).1).status.upstreamReady = cc.status.upstreamReady := by
  unfold prepare
  split <;> rfl

/-! ## Claim C1 -/

/-- Claim C1: the derived upstream name depends only on the multiset of DNS names —
permuting the input yields the identical name — and the call leaves the
caller's slice in its original order. -/
theorem upstreamName_perm_invariant (l₁ l₂ : List (List Char))
    (h : List.Perm l₁ l₂) :
    getUpstreamCertificateName l₁ = getUpstreamCertificateName l₂ ∧
      (getUpstreamCertificateNameGo l₁).2 = l₁ := by
  refine ⟨?_, rfl⟩
  unfold getUpstreamCertificateName
  rw [sortStrings_eq_of_perm h, h.length_eq]

/-- Claim C1 witness: a concrete permuted pair. -/
theorem upstreamName_perm_invariant_witness :
    List.Perm [str "b", str "a"] [str "a", str "b"] ∧
      (getUpstreamCertificateName [str "b", str "a"] =
        getUpstreamCertificateName [str "a", str "b"] ∧
       (getUpstreamCertificateNameGo [str "b", str "a"]).2 = [str "b", str "a"]) :=
  ⟨by decide, upstreamName_perm_invariant [str "b", str "a"] [str "a", str "b"] (by decide)⟩

/-! ## Claim C2 -/

/-- Reference deriver following the claim's words: sort, join with `-`,
replace every `*` and every `\` with `x`, then if the joined string exceeds
253 characters replace it with its first 125 characters followed by the
decimal FNV-64a hash of the full pre-truncation string, and prefix `cc-`.
(Named `...Claim` because it renders the claim, not the source.) -/
def getUpstreamCertificateNameClaim (dnsNames : List (List Char)) : List Char :=
  if dnsNames.length = 0 then [] else
    let joined := replaceAllChar
      (replaceAllChar (List.intercalate (str "-") (sortStrings dnsNames)) '*' 'x') '\\' 'x'
    let resourceName :=
      if 253 < joined.length then joined.take 125 ++ genHash joined else joined
    str "cc-" ++ resourceName

/-- An input that separates the claim's ordering of the two replacements from
the source's: a single 254-character name starting with a backslash. -/
def c2BadName : List Char := '\\' :: List.replicate 253 'a'

/-- Claim C2 counterexample: the code hashes the joined string before the
backslash replacement, the claim's reference hashes it after, so the hash
suffixes disagree on `c2BadName`. -/
theorem upstreamName_claim_formula_counterexample :
    getUpstreamCertificateName [c2BadName] ≠
      getUpstreamCertificateNameClaim [c2BadName] := by
  decide

/-- Join-and-sort phase of the deriver (spec §4.1 wording). -/
def joinSorted (names : List (List Char)) : List Char :=
  List.intercalate (str "-") (sortStrings names)

/-- Truncate-plus-hash phase of the deriver (spec §4.1 wording). -/
def truncateWithHash (s : List Char) : List Char :=
  if maxSecretNameLength < s.length then
    s.take (hashPrefixLength - 3) ++ genHash s
  else s

/-- The claim's algorithm amended to the source's phase order: the `*`
replacement happens before truncation, the `\` replacement after it, and the
hash input is the joined string with only `*` replaced. -/
def getUpstreamCertificateNameAmended (dnsNames : List (List Char)) : List Char :=
  if dnsNames.length = 0 then [] else
    str "cc-" ++
      replaceAllChar (truncateWithHash (replaceAllChar (joinSorted dnsNames) '*' 'x')) '\\' 'x'

/-- Claim C2 amended: for every non-empty input the code equals the amended
reference, and the claim's two worked examples hold as stated. -/
theorem upstreamName_amended_formula (l : List (List Char)) (hne : l ≠ []) :
    getUpstreamCertificateName l = getUpstreamCertificateNameAmended l ∧
      getUpstreamCertificateName [str "test.example.com"] = str "cc-test.example.com" ∧
      getUpstreamCertificateName [str "test.example.com", str "secondary.example.com"] =
        str "cc-secondary.example.com-test.example.com" := by
  refine ⟨?_, by decide, by decide⟩
  unfold getUpstreamCertificateName getUpstreamCertificateNameAmended
  unfold truncateWithHash joinSorted
  rfl

/-- Claim C2 witness: the amended formula at a concrete input. -/
theorem upstreamName_amended_formula_witness :
    [str "test.example.com"] ≠ ([] : List (List Char)) ∧
      (getUpstreamCertificateName [str "test.example.com"] =
        getUpstreamCertificateNameAmended [str "test.example.com"] ∧
       getUpstreamCertificateName [str "test.example.com"] = str "cc-test.example.com" ∧
       getUpstreamCertificateName [str "test.example.com", str "secondary.example.com"] =
         str "cc-secondary.example.com-test.example.com") :=
  ⟨by decide, upstreamName_amended_formula [str "test.example.com"] (by decide)⟩

/-! ## Claim C6 -/

/-- Claim C6: evaluation at the failing input.  Two 126-character names join to a
253-character string, which does not exceed `maxSecretNameLength`, so no
truncation happens and the `cc-` prefix pushes the result to 256 characters —
above the documented 253-character bound. -/
theorem upstreamName_length_bound_violated :
    (getUpstreamCertificateName
        [List.replicate 126 'a', List.replicate 126 'b']).length = 256 := by
  decide

/-! ## Claim C9 -/

/-- Claim C9: `genSecretForSync` errors exactly when an input is missing; with all
three inputs present the produced secret carries the request's secret name
and namespace, the marker label `true`, the `namespace/name` source
annotation, a single controller owner reference to the request, and the
upstream secret's type and data verbatim. -/
theorem genSecretForSync_contract (a : Option CachedCertificate)
    (b : Option UpstreamCert) (c : Option Secret) :
    ((∃ e, genSecretForSync a b c = .error e) ↔ (a = none ∨ b = none ∨ c = none)) ∧
    (∀ cc up us s, genSecretForSync (some cc) (some up) (some us) = .ok s →
      s.name = cc.spec.secretName ∧
      s.ns = cc.ns ∧
      mapGet s.labels SyncedLabelKey = some (str "true") ∧
      mapGet s.annotations SourceAnnotationKey = some (cc.ns ++ str "/" ++ cc.name) ∧
      s.ownerReferences = [{ name := cc.name, controller := true, blockOwnerDeletion := true }] ∧
      s.typ = us.typ ∧ s.data = us.data) := by
  constructor
  · cases a <;> cases b <;> cases c <;> simp [genSecretForSync]
  · intro cc up us s hs
    cases hs
    refine ⟨rfl, rfl, ?_, ?_, rfl, rfl, rfl⟩
    · exact mapGet_mapInsert _ _ _
    · exact mapGet_mapInsert _ _ _

/-! ## Claim C10 -/

/-- The ownership-conflict message returned by `upsertTargetSecret`. -/
def ownershipConflictMsg : List Char :=
  str "refusing to update a secret not created by the controller"

/-- Claim C10: `upsertTargetSecret` decides ownership by mere presence of the
marker label key — any value (empty, `false`, ...) means "ours, replace
wholesale", and the conflict error fires exactly when the key is absent —
while the fan-out event filter compares the marker label's value against the
string `true`. -/
theorem upsert_marker_presence_vs_filter_value (store : SecretStore)
    (s ex : Secret) (hex : secretStoreGet store s.ns s.name = some ex) :
    (∀ v, mapGet ex.labels SyncedLabelKey = some v →
      upsertTargetSecret store s = .ok (secretStorePut store s)) ∧
    (upsertTargetSecret store s = .error ownershipConflictMsg ↔
      mapGet ex.labels SyncedLabelKey = none) ∧
    (∀ cacheNs obj, namespaceAndLabelsPredicate cacheNs obj = true ↔
      (obj.ns = cacheNs ∧
       mapGetD obj.annotations CertificateNameAnnotationKey ≠ [] ∧
       mapGetD obj.labels SyncedLabelKey ≠ str "true")) := by
  refine ⟨?_, ?_, ?_⟩
  · intro v hv
    simp [upsertTargetSecret, hex, hv]
  · cases hv : mapGet ex.labels SyncedLabelKey <;>
      simp [upsertTargetSecret, hex, hv, ownershipConflictMsg]
  · intro cacheNs obj
    simp [namespaceAndLabelsPredicate, and_assoc]

/-- Existing foreign-looking secret for the C10 witness: carries the marker
key with value `false`. -/
def exC10 : Secret :=
  { name := str "tgt", ns := str "app"
    labels := [(SyncedLabelKey, str "false")]
    annotations := [], typ := [], data := [], ownerReferences := [] }

/-- Replacement secret for the C10 witness. -/
def sC10 : Secret :=
  { name := str "tgt", ns := str "app", labels := [], annotations := []
    typ := [], data := [], ownerReferences := [] }

/-- Store for the C10 witness. -/
def storeC10 : SecretStore := [((str "app", str "tgt"), exC10)]

/-- Claim C10 witness: on `storeC10` the existing secret carries the marker key
with value `false`: the upsert replaces it and no conflict error fires. -/
theorem upsert_marker_presence_vs_filter_value_witness :
    secretStoreGet storeC10 sC10.ns sC10.name = some exC10 ∧
    ((∀ v, mapGet exC10.labels SyncedLabelKey = some v →
        upsertTargetSecret storeC10 sC10 = .ok (secretStorePut storeC10 sC10)) ∧
     (upsertTargetSecret storeC10 sC10 = .error ownershipConflictMsg ↔
        mapGet exC10.labels SyncedLabelKey = none) ∧
     (∀ cacheNs obj, namespaceAndLabelsPredicate cacheNs obj = true ↔
       (obj.ns = cacheNs ∧
        mapGetD obj.annotations CertificateNameAnnotationKey ≠ [] ∧
        mapGetD obj.labels SyncedLabelKey ≠ str "true"))) :=
  ⟨by decide, upsert_marker_presence_vs_filter_value storeC10 sC10 exC10 (by decide)⟩

/-! ## Claim C5 -/

/-- Upstream secret for the C5 counterexample: lives in the cache namespace
and carries the cert-manager certificate-name annotation. -/
def secC5 : Secret :=
  { name := str "cc-a.com", ns := str "cache"
    labels := []
    annotations := [(CertificateNameAnnotationKey, str "cc-a.com")]
    typ := [], data := [], ownerReferences := [] }

/-- Dependent request for the C5 counterexample: already Pending. -/
def ccC5 : CachedCertificate :=
  { name := str "req", ns := str "app"
    spec := { secretName := str "tgt"
              issuerRef := { name := str "iss", kind := str "Issuer", group := [] }
              dnsNames := [str "a.com"] }
    status := { upstreamReady := false
                upstreamRef := some { name := str "cc-a.com", ns := str "cache" }
                state := statePending } }

/-- Claim C5 counterexample: the dependent is already Pending, yet the fan-out
pass still issues a status patch call for it (the merge-patch is a no-op in
content, but no write is skipped). -/
theorem fanout_patches_already_pending :
    ccC5.status.state = statePending ∧
      (upstreamSecretReconcile (some secC5) [ccC5]).patches =
        [{ ns := str "app", name := str "req"
           oldState := statePending, newState := statePending }] := by
  constructor
  · decide
  · decide

/-- Claim C5 amended: for each qualifying event the fan-out pass issues exactly one
Pending-setting merge-patch per dependent found via the index, with no
already-Pending skip — every patch writes Pending, every dependent ends up
Pending, and a patch whose dependent was already Pending carries no state
change (old equals new). -/
theorem fanout_patch_characterization (s : Secret) (certs : List CachedCertificate)
    (certName : List Char)
    (hname : mapGetD s.annotations CertificateNameAnnotationKey = certName)
    (hne : certName ≠ []) :
    (upstreamSecretReconcile (some s) certs).patches =
      (certs.filter (fun c => certName ∈ indexValues c)).map
        (fun c => { ns := c.ns, name := c.name, oldState := c.status.state
                    newState := statePending }) ∧
    (upstreamSecretReconcile (some s) certs).certs =
      certs.map (fun c =>
        if certName ∈ indexValues c then
          { c with status := { c.status with state := statePending } }
        else c) ∧
    (∀ p, p ∈ (upstreamSecretReconcile (some s) certs).patches →
      p.newState = statePending ∧
        (p.oldState = statePending → p.oldState = p.newState)) := by
  refine ⟨?_, ?_, ?_⟩
  · simp [upstreamSecretReconcile, hname, hne]
  · simp [upstreamSecretReconcile, hname, hne]
  · intro p hp
    simp only [upstreamSecretReconcile, hname, if_neg hne, List.mem_map] at hp
    obtain ⟨c, _, rfl⟩ := hp
    exact ⟨rfl, fun h => h⟩

/-- Claim C5 witness: the amended characterization at a concrete secret and
dependent list. -/
theorem fanout_patch_characterization_witness :
    mapGetD secC5.annotations CertificateNameAnnotationKey = str "cc-a.com" ∧
    ((upstreamSecretReconcile (some secC5) [ccC5]).patches =
        ([ccC5].filter (fun c => str "cc-a.com" ∈ indexValues c)).map
          (fun c => { ns := c.ns, name := c.name, oldState := c.status.state
                      newState := statePending }) ∧
     (upstreamSecretReconcile (some secC5) [ccC5]).certs =
        [ccC5].map (fun c =>
          if str "cc-a.com" ∈ indexValues c then
            { c with status := { c.status with state := statePending } }
          else c) ∧
     (∀ p, p ∈ (upstreamSecretReconcile (some secC5) [ccC5]).patches →
        p.newState = statePending ∧
          (p.oldState = statePending → p.oldState = p.newState))) :=
  ⟨by decide, fanout_patch_characterization secC5 [ccC5] (str "cc-a.com")
    (by decide) (by decide)⟩

/-! ## Claim C3 -/

/-- The status written by the stale-binding reset: Pending, not ready,
upstream reference cleared. -/
def staleResetStatus : CCStatus :=
  { upstreamReady := false, upstreamRef := none, state := statePending }

/-- Claim C3: when the fetched upstream Certificate's dnsNames differ from the
request's as sets, the pass persists exactly one status write — Pending, not
ready, reference cleared — returns no error and no requeue, and touches
neither the secrets nor the upstream Certificates; in particular no
upstream-secret fetch, materialization or target-secret upsert happens. -/
theorem stale_dns_reset (cacheNs : List Char) (cl : Cluster)
    (cc0 : CachedCertificate) (up : UpstreamCert) (ds : List (List Char))
    (h1 : cl.cachedCert = some cc0)
    (h2 : certStoreGet cl.upstreamCerts (prepare cacheNs cc0).2.ns
      (prepare cacheNs cc0).2.name = some up)
    (h3 : up.dnsNames = .val ds)
    (h4 : slicesEqualAfterSort ds ((prepare cacheNs cc0).1).spec.dnsNames = false) :
    Reconcile cacheNs cl =
      { cluster := persistStatus cl staleResetStatus
        trace := [.statusWrite .staleReset staleResetStatus]
        result := { requeue := false, requeueAfterSec := 0 }
        err := none } ∧
    (Reconcile cacheNs cl).cluster.secrets = cl.secrets ∧
    (Reconcile cacheNs cl).cluster.upstreamCerts = cl.upstreamCerts ∧
    (Reconcile cacheNs cl).cluster.cachedCert =
      some { cc0 with status := staleResetStatus } := by
  have hmain : Reconcile cacheNs cl =
      { cluster := persistStatus cl staleResetStatus
        trace := [.statusWrite .staleReset staleResetStatus]
        result := { requeue := false, requeueAfterSec := 0 }
        err := none } := by
    simp only [Reconcile, h1, h2, h3, h4, staleResetStatus, Bool.false_eq_true,
      if_false]
  refine ⟨hmain, ?_, ?_, ?_⟩ <;> rw [hmain] <;> simp [persistStatus, h1]

/-- Issuer used by the concrete reconcile scenarios. -/
def issX : IssuerRef := { name := str "iss", kind := str "Issuer", group := [] }

/-- Request for the C3 witness: bound to `cc-old` but asking for `a.com`. -/
def ccC3 : CachedCertificate :=
  { name := str "req", ns := str "app"
    spec := { secretName := str "tgt", issuerRef := issX, dnsNames := [str "a.com"] }
    status := { upstreamReady := true
                upstreamRef := some { name := str "cc-old", ns := str "cache" }
                state := stateSynced } }

/-- Upstream Certificate for the C3 witness: carries `b.com`, not `a.com`. -/
def upC3 : UpstreamCert :=
  { name := str "cc-old", ns := str "cache"
    dnsNames := .val [str "b.com"]
    secretName := .val (str "cc-old")
    issuerRef := issX }

/-- Cluster for the C3 witness. -/
def clC3 : Cluster :=
  { cachedCert := some ccC3
    upstreamCerts := [((str "cache", str "cc-old"), upC3)]
    secrets := [] }

/-- Claim C3 witness: the stale-binding reset at the concrete cluster `clC3`. -/
theorem stale_dns_reset_witness :
    Reconcile (str "cache") clC3 =
      { cluster := persistStatus clC3 staleResetStatus
        trace := [.statusWrite .staleReset staleResetStatus]
        result := { requeue := false, requeueAfterSec := 0 }
        err := none } ∧
    (Reconcile (str "cache") clC3).cluster.secrets = clC3.secrets ∧
    (Reconcile (str "cache") clC3).cluster.upstreamCerts = clC3.upstreamCerts ∧
    (Reconcile (str "cache") clC3).cluster.cachedCert =
      some { ccC3 with status := staleResetStatus } :=
  stale_dns_reset (str "cache") clC3 ccC3 upC3 [str "b.com"]
    (by decide) (by decide) (by decide) (by decide)

/-! ## Claim C4 -/

/-- Claim C4: when the target-name slot is occupied by a secret without the marker
label, the upsert refuses with the ownership-conflict error, the pass
persists state Error (after the ready-flip write when upstream readiness was
freshly observed), returns no requeue, and the secrets of the cluster — the
foreign secret included — are left exactly unchanged. -/
theorem ownership_conflict_sets_error (cacheNs : List Char) (cl : Cluster)
    (cc0 : CachedCertificate) (up : UpstreamCert) (ds : List (List Char))
    (us tgt ex : Secret)
    (h1 : cl.cachedCert = some cc0)
    (h2 : certStoreGet cl.upstreamCerts (prepare cacheNs cc0).2.ns
      (prepare cacheNs cc0).2.name = some up)
    (h3 : up.dnsNames = .val ds)
    (h4 : slicesEqualAfterSort ds ((prepare cacheNs cc0).1).spec.dnsNames = true)
    (h5 : getUpstreamSecret cl up = .found us)
    (h6 : genSecretForSync (some (prepare cacheNs cc0).1) (some up) (some us) = .ok tgt)
    (h7 : validateSecret (some tgt) = .ok ())
    (h8 : secretStoreGet cl.secrets tgt.ns tgt.name = some ex)
    (h9 : mapGet ex.labels SyncedLabelKey = none) :
    upsertTargetSecret cl.secrets tgt = .error ownershipConflictMsg ∧
    Reconcile cacheNs cl =
      { cluster := persistStatus cl
          { ((prepare cacheNs cc0).1).status with upstreamReady := true, state := stateError }
        trace :=
          (if ((prepare cacheNs cc0).1).status.upstreamReady then ([] : List Event)
           else [.statusWrite .readyFlip
             { ((prepare cacheNs cc0).1).status with upstreamReady := true }]) ++
          [.statusWrite .upsertError
            { ((prepare cacheNs cc0).1).status with upstreamReady := true, state := stateError }]
        result := { requeue := false, requeueAfterSec := 0 }
        err := none } ∧
    (Reconcile cacheNs cl).cluster.secrets = cl.secrets := by
  have hup : upsertTargetSecret cl.secrets tgt = .error ownershipConflictMsg := by
    simp [upsertTargetSecret, h8, h9, ownershipConflictMsg]
  have h6f : genSecretForSync
      (some { (prepare cacheNs cc0).1 with status :=
        { ((prepare cacheNs cc0).1).status with upstreamReady := true } })
      (some up) (some us) = .ok tgt := h6
  refine ⟨hup, ?_, ?_⟩ <;> by_cases hr : ((prepare cacheNs cc0).1).status.upstreamReady
  · simp only [Reconcile, h1, h2, h3, h4, h5, hr, if_true, if_false, h6, h7, hup,
      persistStatus_secrets, persistStatus_persistStatus, List.nil_append]
  · have hrf : ((prepare cacheNs cc0).1).status.upstreamReady = false := by
      simpa using hr
    simp only [Reconcile, h1, h2, h3, h4, h5, hrf, Bool.false_eq_true, if_true,
      if_false, h6f, h7, hup, persistStatus_secrets, persistStatus_persistStatus]
  · simp only [Reconcile, h1, h2, h3, h4, h5, hr, if_true, if_false, h6, h7, hup,
      persistStatus_secrets, persistStatus_persistStatus, List.nil_append]
  · have hrf : ((prepare cacheNs cc0).1).status.upstreamReady = false := by
      simpa using hr
    simp only [Reconcile, h1, h2, h3, h4, h5, hrf, Bool.false_eq_true, if_true,
      if_false, h6f, h7, hup, persistStatus_secrets, persistStatus_persistStatus]

/-- Request for the C4 witness. -/
def ccC4 : CachedCertificate :=
  { name := str "req", ns := str "app"
    spec := { secretName := str "tgt", issuerRef := issX, dnsNames := [str "a.com"] }
    status := { upstreamReady := true
                upstreamRef := some { name := str "cc-ok", ns := str "cache" }
                state := stateSynced } }

/-- Upstream Certificate for the C4 witness: matches the request's DNS set. -/
def upC4 : UpstreamCert :=
  { name := str "cc-ok", ns := str "cache"
    dnsNames := .val [str "a.com"]
    secretName := .val (str "cc-ok")
    issuerRef := issX }

/-- Upstream secret for the C4 witness: both required data keys present. -/
def usC4 : Secret :=
  { name := str "cc-ok", ns := str "cache"
    labels := []
    annotations := [(CertificateNameAnnotationKey, str "cc-ok")]
    typ := str "kubernetes.io/tls"
    data := [(str "tls.crt", []), (str "tls.key", [])]
    ownerReferences := [] }

/-- The target secret the materializer produces in the C4 witness. -/
def tgtC4 : Secret :=
  { name := str "tgt", ns := str "app"
    labels := [(SyncedLabelKey, str "true")]
    annotations := [(CertificateNameAnnotationKey, str "cc-ok"),
                    (SourceAnnotationKey, str "app/req")]
    typ := str "kubernetes.io/tls"
    data := [(str "tls.crt", []), (str "tls.key", [])]
    ownerReferences := [{ name := str "req", controller := true, blockOwnerDeletion := true }] }

/-- Foreign secret occupying the target slot in the C4 witness: no marker. -/
def exC4 : Secret :=
  { name := str "tgt", ns := str "app", labels := [], annotations := []
    typ := [], data := [], ownerReferences := [] }

/-- Cluster for the C4 witness. -/
def clC4 : Cluster :=
  { cachedCert := some ccC4
    upstreamCerts := [((str "cache", str "cc-ok"), upC4)]
    secrets := [((str "cache", str "cc-ok"), usC4), ((str "app", str "tgt"), exC4)] }

/-- Claim C4 witness: the ownership-conflict outcome at the concrete cluster
`clC4`. -/
theorem ownership_conflict_sets_error_witness :
    upsertTargetSecret clC4.secrets tgtC4 = .error ownershipConflictMsg ∧
    Reconcile (str "cache") clC4 =
      { cluster := persistStatus clC4
          { ((prepare (str "cache") ccC4).1).status with upstreamReady := true, state := stateError }
        trace :=
          (if ((prepare (str "cache") ccC4).1).status.upstreamReady then ([] : List Event)
           else [.statusWrite .readyFlip
             { ((prepare (str "cache") ccC4).1).status with upstreamReady := true }]) ++
          [.statusWrite .upsertError
            { ((prepare (str "cache") ccC4).1).status with upstreamReady := true, state := stateError }]
        result := { requeue := false, requeueAfterSec := 0 }
        err := none } ∧
    (Reconcile (str "cache") clC4).cluster.secrets = clC4.secrets :=
  ownership_conflict_sets_error (str "cache") clC4 ccC4 upC4 [str "a.com"]
    usC4 tgtC4 exC4 (by decide) (by decide) (by decide) (by decide)
    (by decide) (by rfl) (by rfl) (by decide) (by decide)

/-! ## Claims C7 and C8: characterization of the persisted status writes -/

/-- Every status write a request-reconcile pass can issue, by site: the
create-branch write persists the stored state and readiness unchanged; the
stale reset writes the Pending/cleared status; the secret-missing write is
guarded by the stored status not already being Pending/not-ready; the
secret-field-error and upsert-error writes set Error; the ready-flip write is
guarded by readiness being false and keeps the stored state; the final write
sets Synced. -/
theorem trace_statusWrite_cases (cacheNs : List Char) (cl : Cluster)
    (cc0 : CachedCertificate) (site : WriteSite) (st : CCStatus)
    (h1 : cl.cachedCert = some cc0)
    (hmem : Event.statusWrite site st ∈ (Reconcile cacheNs cl).trace) :
    (site = .afterCreate ∧ st = ((prepare cacheNs cc0).1).status ∧
      st.state = cc0.status.state ∧ st.upstreamReady = cc0.status.upstreamReady) ∨
    (site = .staleReset ∧ st = staleResetStatus) ∨
    (site = .secretMissing ∧ st.state = statePending ∧ st.upstreamReady = false ∧
      (cc0.status.state ≠ statePending ∨ cc0.status.upstreamReady = true)) ∨
    (site = .secretGetError ∧ st.state = stateError ∧ st.upstreamReady = false) ∨
    (site = .readyFlip ∧ st.upstreamReady = true ∧ st.state = cc0.status.state ∧
      cc0.status.upstreamReady = false) ∨
    (site = .upsertError ∧ st.state = stateError) ∨
    (site = .synced ∧ st.state = stateSynced) := by
  simp only [Reconcile, h1] at hmem
  split at hmem
  · -- upstream Certificate not found: create branch
    simp only [List.mem_cons, List.not_mem_nil, or_false, Event.statusWrite.injEq,
      reduceCtorEq, false_or] at hmem
    obtain ⟨rfl, rfl⟩ := hmem
    exact Or.inl ⟨rfl, rfl, prepare_status_state cacheNs cc0, prepare_status_ready cacheNs cc0⟩
  · -- upstream Certificate found: read its dnsNames
    split at hmem
    · simp at hmem
    · simp at hmem
    · -- dnsNames present: set comparison
      split at hmem
      · -- sets equal: fetch the upstream secret
        split at hmem
        · -- secret NotFound: guarded Pending write
          split at hmem
          · rename_i hguard
            simp only [List.mem_cons, List.not_mem_nil, or_false,
              Event.statusWrite.injEq] at hmem
            obtain ⟨rfl, rfl⟩ := hmem
            rw [prepare_status_state, prepare_status_ready] at hguard
            exact Or.inr (Or.inr (Or.inl ⟨rfl, rfl, rfl, hguard⟩))
          · simp at hmem
        · -- field error on the upstream Certificate
          simp only [List.mem_cons, List.not_mem_nil, or_false,
            Event.statusWrite.injEq] at hmem
          obtain ⟨rfl, rfl⟩ := hmem
          exact Or.inr (Or.inr (Or.inr (Or.inl ⟨rfl, rfl, rfl⟩)))
        · -- secret found: possible ready flip, then materialize and upsert
          rcases Bool.eq_false_or_eq_true
              ((prepare cacheNs cc0).1).status.upstreamReady with hr | hr
          · -- upstream already marked ready: no flip write
            simp only [hr, eq_self_iff_true, if_true, genSecretForSync] at hmem
            split at hmem
            · simp at hmem
            · split at hmem
              · -- upsert refused, no ready flip
                simp only [List.nil_append, List.mem_cons, List.not_mem_nil,
                  or_false, Event.statusWrite.injEq] at hmem
                obtain ⟨rfl, rfl⟩ := hmem
                exact Or.inr (Or.inr (Or.inr (Or.inr (Or.inr (Or.inl ⟨rfl, rfl⟩)))))
              · -- upsert succeeded, no ready flip
                simp only [List.nil_append, List.mem_cons, List.not_mem_nil,
                  or_false, Event.statusWrite.injEq] at hmem
                obtain ⟨rfl, rfl⟩ := hmem
                exact Or.inr (Or.inr (Or.inr (Or.inr (Or.inr (Or.inr ⟨rfl, rfl⟩)))))
          · -- readiness freshly observed: flip write precedes the rest
            simp only [hr, Bool.false_eq_true, if_false, genSecretForSync] at hmem
            split at hmem
            · -- validation failed: only the ready-flip write happened
              simp only [List.mem_cons, List.not_mem_nil, or_false,
                Event.statusWrite.injEq] at hmem
              obtain ⟨rfl, rfl⟩ := hmem
              exact Or.inr (Or.inr (Or.inr (Or.inr (Or.inl
                ⟨rfl, rfl, prepare_status_state cacheNs cc0,
                  (prepare_status_ready cacheNs cc0) ▸ hr⟩))))
            · split at hmem
              · -- upsert refused: ready-flip write plus Error write
                simp only [List.mem_append, List.mem_cons, List.not_mem_nil,
                  or_false, Event.statusWrite.injEq] at hmem
                rcases hmem with ⟨rfl, rfl⟩ | ⟨rfl, rfl⟩
                · exact Or.inr (Or.inr (Or.inr (Or.inr (Or.inl
                    ⟨rfl, rfl, prepare_status_state cacheNs cc0,
                      (prepare_status_ready cacheNs cc0) ▸ hr⟩))))
                · exact Or.inr (Or.inr (Or.inr (Or.inr (Or.inr (Or.inl ⟨rfl, rfl⟩)))))
              · -- upsert succeeded: ready-flip write plus Synced write
                simp only [List.mem_append, List.mem_cons, List.not_mem_nil,
                  or_false, Event.statusWrite.injEq] at hmem
                rcases hmem with ⟨rfl, rfl⟩ | ⟨rfl, rfl⟩
                · exact Or.inr (Or.inr (Or.inr (Or.inr (Or.inl
                    ⟨rfl, rfl, prepare_status_state cacheNs cc0,
                      (prepare_status_ready cacheNs cc0) ▸ hr⟩))))
                · exact Or.inr (Or.inr (Or.inr (Or.inr (Or.inr (Or.inr ⟨rfl, rfl⟩)))))
      · -- sets differ: stale reset
        simp only [List.mem_cons, List.not_mem_nil, or_false,
          Event.statusWrite.injEq] at hmem
        obtain ⟨rfl, rfl⟩ := hmem
        exact Or.inr (Or.inl ⟨rfl, rfl⟩)

/-- Every patch the fan-out reconciler issues writes state Pending. -/
theorem fanout_patch_newState (sec : Option Secret) (certs : List CachedCertificate)
    (p : StatusPatch) (hp : p ∈ (upstreamSecretReconcile sec certs).patches) :
    p.newState = statePending := by
  cases sec with
  | none => simp [upstreamSecretReconcile] at hp
  | some s =>
    by_cases hname : mapGetD s.annotations CertificateNameAnnotationKey = []
    · simp [upstreamSecretReconcile, hname] at hp
    · simp only [upstreamSecretReconcile, if_neg hname, List.mem_map] at hp
      obtain ⟨c, _, rfl⟩ := hp
      rfl

/-- Claim C7 amended: the upstream-secret-missing Pending write and the
upstreamReady flip write are issued only when the written status differs from
the stored one (and only under the corresponding stored-status guards); the
final Synced write, the stale reset and the error writes carry no such
guard. -/
theorem guarded_writes_only_on_change (cacheNs : List Char) (cl : Cluster)
    (cc0 : CachedCertificate) (site : WriteSite) (st : CCStatus)
    (h1 : cl.cachedCert = some cc0)
    (hmem : Event.statusWrite site st ∈ (Reconcile cacheNs cl).trace) :
    ((site = .secretMissing ∨ site = .readyFlip) → st ≠ cc0.status) ∧
    (site = .secretMissing →
      (cc0.status.state ≠ statePending ∨ cc0.status.upstreamReady = true)) ∧
    (site = .readyFlip → cc0.status.upstreamReady = false) := by
  have hc := trace_statusWrite_cases cacheNs cl cc0 site st h1 hmem
  rcases hc with ⟨rfl, -, -, -⟩ | ⟨rfl, -⟩ | ⟨rfl, h2, h3, h4⟩ | ⟨rfl, -, -⟩ |
    ⟨rfl, h2, h3, h4⟩ | ⟨rfl, -⟩ | ⟨rfl, -⟩
  · exact ⟨by simp, by simp, by simp⟩
  · exact ⟨by simp, by simp, by simp⟩
  · refine ⟨fun _ heqst => ?_, fun _ => h4, by simp⟩
    rw [heqst] at h2 h3
    rcases h4 with h4 | h4
    · exact h4 h2
    · rw [h3] at h4; cases h4
  · exact ⟨by simp, by simp, by simp⟩
  · refine ⟨fun _ heqst => ?_, by simp, fun _ => h4⟩
    rw [heqst] at h2
    rw [h2] at h4; cases h4
  · exact ⟨by simp, by simp, by simp⟩
  · exact ⟨by simp, by simp, by simp⟩

/-- Request in steady Synced state for the C7 counterexample. -/
def ccC7 : CachedCertificate :=
  { name := str "req", ns := str "app"
    spec := { secretName := str "tgt", issuerRef := issX, dnsNames := [str "s.com"] }
    status := { upstreamReady := true
                upstreamRef := some { name := str "cc-sync", ns := str "cache" }
                state := stateSynced } }

/-- Upstream Certificate matching `ccC7`. -/
def upC7 : UpstreamCert :=
  { name := str "cc-sync", ns := str "cache"
    dnsNames := .val [str "s.com"]
    secretName := .val (str "cc-sync")
    issuerRef := issX }

/-- Upstream secret matching `upC7`. -/
def usC7 : Secret :=
  { name := str "cc-sync", ns := str "cache"
    labels := []
    annotations := [(CertificateNameAnnotationKey, str "cc-sync")]
    typ := str "kubernetes.io/tls"
    data := [(str "tls.crt", []), (str "tls.key", [])]
    ownerReferences := [] }

/-- Previously synced target secret, carrying the marker label. -/
def tgtOldC7 : Secret :=
  { name := str "tgt", ns := str "app"
    labels := [(SyncedLabelKey, str "true")]
    annotations := []
    typ := str "kubernetes.io/tls"
    data := [(str "tls.crt", []), (str "tls.key", [])]
    ownerReferences := [] }

/-- Fully converged cluster: reconciling it again is a no-op in content. -/
def clC7 : Cluster :=
  { cachedCert := some ccC7
    upstreamCerts := [((str "cache", str "cc-sync"), upC7)]
    secrets := [((str "cache", str "cc-sync"), usC7), ((str "app", str "tgt"), tgtOldC7)] }

/-- Claim C7 counterexample: on an already-converged cluster the pass still issues
the final Synced status write, and the written status equals the stored one —
the claim that every issued write differs from the stored status is false. -/
theorem synced_write_issued_when_unchanged :
    (Reconcile (str "cache") clC7).trace =
      [Event.statusWrite .synced ccC7.status] ∧
    clC7.cachedCert = some ccC7 := by
  constructor
  · decide
  · decide

/-- Status the secret-missing branch writes in the C7 witness cluster. -/
def stMissC7 : CCStatus :=
  { upstreamReady := false
    upstreamRef := some { name := str "cc-sync", ns := str "cache" }
    state := statePending }

/-- `clC7` with the upstream secret deleted: the pass takes the guarded
secret-missing branch. -/
def clC7b : Cluster :=
  { cachedCert := some ccC7
    upstreamCerts := [((str "cache", str "cc-sync"), upC7)]
    secrets := [((str "app", str "tgt"), tgtOldC7)] }

/-- Claim C7 witness: the guarded-write properties at the concrete secret-missing
pass on `clC7b`. -/
theorem guarded_writes_only_on_change_witness :
    ((WriteSite.secretMissing = .secretMissing ∨ WriteSite.secretMissing = .readyFlip) →
      stMissC7 ≠ ccC7.status) ∧
    (WriteSite.secretMissing = .secretMissing →
      (ccC7.status.state ≠ statePending ∨ ccC7.status.upstreamReady = true)) ∧
    (WriteSite.secretMissing = .readyFlip → ccC7.status.upstreamReady = false) :=
  guarded_writes_only_on_change (str "cache") clC7b ccC7 .secretMissing stMissC7
    (by decide) (by decide)

/-- Claim C8 amended: every status write that assigns the state field assigns one
of the three enumerated values; the create-upstream write and the ready-flip
write leave the state field at its previously stored value — for a fresh
request that value is the empty string, outside the enumeration — and every
fan-out patch writes Pending. -/
theorem persisted_states_characterization (cacheNs : List Char) (cl : Cluster)
    (cc0 : CachedCertificate) (site : WriteSite) (st : CCStatus)
    (sec : Option Secret) (certs : List CachedCertificate) (p : StatusPatch)
    (h1 : cl.cachedCert = some cc0)
    (hmem : Event.statusWrite site st ∈ (Reconcile cacheNs cl).trace) :
    ((site ≠ .afterCreate ∧ site ≠ .readyFlip) →
      (st.state = statePending ∨ st.state = stateSynced ∨ st.state = stateError)) ∧
    ((site = .afterCreate ∨ site = .readyFlip) → st.state = cc0.status.state) ∧
    (p ∈ (upstreamSecretReconcile sec certs).patches → p.newState = statePending) := by
  refine ⟨?_, ?_, fanout_patch_newState sec certs p⟩ <;>
  · have hc := trace_statusWrite_cases cacheNs cl cc0 site st h1 hmem
    rcases hc with ⟨rfl, -, h3, -⟩ | ⟨rfl, rfl⟩ | ⟨rfl, h2, -, -⟩ | ⟨rfl, h2, -⟩ |
      ⟨rfl, -, h3, -⟩ | ⟨rfl, h2⟩ | ⟨rfl, h2⟩ <;>
      simp_all [staleResetStatus]

/-- Fresh request for the C8 counterexample: zero-valued status, empty
secret name. -/
def ccC8 : CachedCertificate :=
  { name := str "req", ns := str "app"
    spec := { secretName := [], issuerRef := issX, dnsNames := [str "a.com"] }
    status := { upstreamReady := false, upstreamRef := none, state := [] } }

/-- Cluster holding only the fresh request. -/
def clC8 : Cluster := { cachedCert := some ccC8, upstreamCerts := [], secrets := [] }

/-- Claim C8 counterexample: the create-upstream branch persists the fresh
request's status whose state is the empty string — not one of the three
enumerated values. -/
theorem afterCreate_persists_empty_state :
    (Reconcile (str "cache") clC8).trace =
      [Event.createUpstream
        { name := str "cc-a.com", ns := str "cache"
          dnsNames := .val [str "a.com"]
          secretName := .val (str "cc-a.com")
          issuerRef := issX },
       Event.statusWrite .afterCreate
        { upstreamReady := false
          upstreamRef := some { name := str "cc-a.com", ns := str "cache" }
          state := [] }] ∧
    ¬(([] : List Char) = statePending ∨ ([] : List Char) = stateSynced ∨
      ([] : List Char) = stateError) := by
  constructor
  · decide
  · decide

/-- The status persisted by the create branch on `clC8`. -/
def stC8 : CCStatus :=
  { upstreamReady := false
    upstreamRef := some { name := str "cc-a.com", ns := str "cache" }
    state := [] }

/-- Claim C8 witness: the characterization at the concrete create-branch pass on
`clC8` (and a concrete fan-out patch list). -/
theorem persisted_states_characterization_witness :
    ((WriteSite.afterCreate ≠ .afterCreate ∧ WriteSite.afterCreate ≠ .readyFlip) →
      (stC8.state = statePending ∨ stC8.state = stateSynced ∨ stC8.state = stateError)) ∧
    ((WriteSite.afterCreate = .afterCreate ∨ WriteSite.afterCreate = .readyFlip) →
      stC8.state = ccC8.status.state) ∧
    ({ ns := str "app", name := str "req", oldState := statePending
       newState := statePending : StatusPatch } ∈
        (upstreamSecretReconcile (some secC5) [ccC5]).patches →
      ({ ns := str "app", name := str "req", oldState := statePending
         newState := statePending : StatusPatch }).newState = statePending) :=
  persisted_states_characterization (str "cache") clC8 ccC8 .afterCreate stC8
    (some secC5) [ccC5]
    { ns := str "app", name := str "req", oldState := statePending
      newState := statePending }
    (by decide) (by decide)
